import Mathlib

/-!
Verification of the PR-Gate and Pipeline-Watch Orchestrator
(backstage azure-devops-automation).

The repository ships the Backstage backend proxy router
(`backstage-plugin/azure-devops-automation-backend/src/service/router.ts`)
verbatim; the Python orchestrator core (eligibility filter, approval/merge
coordinator, pipeline watch loop, notifier, facade) is referenced by the
repository but its source is not present, so those components are modelled
from the specification, as marked on each definition.  The router handlers
are embedded directly from `router.ts`.
-/

namespace Backstage

/-! ## Data model (spec section 3) -/

/-- Modelled from the spec: a pull request as read from the remote platform.
The source system's `reviewerVoteByReviewerId` mapping is represented as an
association list from reviewer identifier to vote string. -/
structure PullRequest where
  id : Int
  repositoryId : String
  sourceBranch : String
  targetBranch : String
  reviewerVotes : List (String × String)
  mergeStatus : String
  deriving DecidableEq, Repr

/-- Modelled from the spec: the current vote of a reviewer on a PR; a
reviewer with no recorded vote has the empty vote, which is not
"approved". -/
def voteOf (pr : PullRequest) (reviewerId : String) : String :=
  (pr.reviewerVotes.lookup reviewerId).getD ""

/-- Case-insensitive string equality used for branch comparison
(spec section 3: target-branch comparison is case-insensitive): the
character sequences agree after lowercasing. -/
def branchEq (a b : String) : Bool :=
  a.data.map Char.toLower == b.data.map Char.toLower

/-! ## Eligibility filter (spec section 4.1) -/

/-- Modelled from the spec: `selectEligible(prs, promotionBranch,
allowedPrIds)` keeps a PR iff its target branch case-insensitively equals
the promotion branch, its id is in the allow-list when one is provided, and
the configured reviewer's current vote is not already "approved".  The
Python implementation of the eligibility filter is not part of the shipped
sources. -/
def selectEligible (reviewerId : String) (prs : List PullRequest)
    (promotionBranch : String) (allowedPrIds : Option (List Int)) :
    List PullRequest :=
  prs.filter fun pr =>
    branchEq pr.targetBranch promotionBranch
    && (match allowedPrIds with
        | none => true
        | some ids => ids.contains pr.id)
    && !(voteOf pr reviewerId == "approved")

/-! ## Approval/merge coordinator (spec section 4.2) -/

/-- Modelled from the spec: the error taxonomy of section 7. -/
inductive ErrorKind where
  | ApprovalFailed
  | MergeFailed
  | FetchFailed
  | TimedOut
  | NotificationFailed
  deriving DecidableEq, Repr

/-- Modelled from the spec: one approval/merge outcome per attempted PR. -/
structure ApprovalOutcome where
  pullRequestId : Int
  repositoryId : String
  approved : Bool
  merged : Bool
  errorKind : Option ErrorKind
  deriving DecidableEq, Repr

/-- A call made against the Remote Repository Client, recorded so that
theorems can speak about which remote operations an invocation performs. -/
inductive RemoteCall where
  | approveCall (repositoryId : String) (prId : Int) (reviewerId : String)
  | mergeCall (repositoryId : String) (prId : Int)
  deriving DecidableEq, Repr

/-- Modelled from the spec: the two-step per-PR operation of section 4.2.
`approveOk` and `mergeOk` model the Remote Repository Client's responses
(deterministic given identical remote state).  Returns the recorded
outcome together with the remote calls made for this PR: on approval
failure the merge step is skipped. -/
def approveMergeOne (reviewerId : String) (approveOk mergeOk : Int → Bool)
    (pr : PullRequest) : ApprovalOutcome × List RemoteCall :=
  if approveOk pr.id then
    if mergeOk pr.id then
      (⟨pr.id, pr.repositoryId, true, true, none⟩,
        [.approveCall pr.repositoryId pr.id reviewerId,
          .mergeCall pr.repositoryId pr.id])
    else
      (⟨pr.id, pr.repositoryId, true, false, some .MergeFailed⟩,
        [.approveCall pr.repositoryId pr.id reviewerId,
          .mergeCall pr.repositoryId pr.id])
  else
    (⟨pr.id, pr.repositoryId, false, false, some .ApprovalFailed⟩,
      [.approveCall pr.repositoryId pr.id reviewerId])

/-- Modelled from the spec: the coordinator processes each eligible PR
independently and returns one ordered outcome per PR regardless of
individual failures, together with the full remote-call trace. -/
def approveAndMerge (reviewerId : String) (approveOk mergeOk : Int → Bool)
    (eligible : List PullRequest) : List ApprovalOutcome × List RemoteCall :=
  (eligible.map fun pr => (approveMergeOne reviewerId approveOk mergeOk pr).1,
    (eligible.map fun pr => (approveMergeOne reviewerId approveOk mergeOk pr).2).flatten)

/-- A sample PR targeting the promotion branch, not yet approved, used by
witnesses. -/
def samplePR1 : PullRequest :=
  ⟨101, "R1", "feature/a", "QAS", [], "queued"⟩

/-- A second sample PR, already approved by reviewer "rev", used by
witnesses. -/
def samplePR2 : PullRequest :=
  ⟨102, "R1", "feature/b", "qas", [("rev", "approved")], "queued"⟩

/-- The (repository, id) key identifying a PR across reads. -/
def prKey (pr : PullRequest) : String × Int :=
  (pr.repositoryId, pr.id)

/-- The (repository, id) key a remote call is addressed to. -/
def callKey : RemoteCall → String × Int
  | .approveCall r p _ => (r, p)
  | .mergeCall r p => (r, p)

/-! ## Pipeline watch loop (spec section 4.3) -/

/-- Modelled from the spec: the state of a pipeline run. -/
inductive PipeState where
  | queued
  | running
  | succeeded
  | failed
  | canceled
  deriving DecidableEq, Repr

/-- A pipeline state is terminal when the run has resolved
(succeeded, failed or canceled). -/
def PipeState.isTerminal : PipeState → Bool
  | .succeeded => true
  | .failed => true
  | .canceled => true
  | _ => false

/-- Modelled from the spec: the result emitted for one repository of a
watch session.  `finalState` is the last state observed for the
repository's latest run, `none` when every fetch failed. -/
structure WatchResult where
  repositoryId : String
  finalState : Option PipeState
  resolvedWithinDeadline : Bool
  elapsedTicks : Nat
  deriving DecidableEq, Repr

/-- The environment of a watch session: `env t r` is what fetching the
latest pipeline run of repository `r` on poll tick `t` yields, `none`
modelling a transient fetch failure on that tick. -/
def WatchEnv : Type :=
  Nat → String → Option PipeState

/-- Modelled from the spec: the per-repository polling loop.  On each tick
the latest run is fetched; a terminal state resolves the repository
immediately; a fetch failure is simply retried on the next tick; when the
tick budget is exhausted the repository is emitted as TimedOut
(`resolvedWithinDeadline = false`) with the last observed state. -/
def watchRepoGo (env : WatchEnv) (repoId : String) :
    Nat → Nat → Option PipeState → WatchResult
  | tick, 0, last => ⟨repoId, last, false, tick⟩
  | tick, fuel + 1, last =>
    match env tick repoId with
    | some s =>
      if s.isTerminal then ⟨repoId, some s, true, tick⟩
      else watchRepoGo env repoId (tick + 1) fuel (some s)
    | none => watchRepoGo env repoId (tick + 1) fuel last

/-- Modelled from the spec: watch one repository with a given tick
budget. -/
def watchRepo (env : WatchEnv) (repoId : String) (maxTicks : Nat) :
    WatchResult :=
  watchRepoGo env repoId 0 maxTicks none

/-- Modelled from the spec: the number of poll ticks a session allows.  In
single-pass mode each repository is polled exactly once.  In continuous
mode ticks occur every `pollSeconds` until the deadline `timeoutMinutes`
minutes after session start, and at least one poll is always performed
even when the interval is not shorter than the remaining time. -/
def maxTicksFor (once : Bool) (timeoutMinutes pollSeconds : Nat) : Nat :=
  if once then 1
  else max 1 ((timeoutMinutes * 60 + pollSeconds - 1) / pollSeconds)

/-- Modelled from the spec: the watch operation polls every requested
repository independently and collects one `WatchResult` per repository in
the caller-supplied order. -/
def watch (env : WatchEnv) (repositoryIds : List String) (once : Bool)
    (timeoutMinutes pollSeconds : Nat) : List WatchResult :=
  repositoryIds.map fun r =>
    watchRepo env r (maxTicksFor once timeoutMinutes pollSeconds)

/-- The notifier environment: whether delivering a given summary message
succeeds (`true`) or fails (`false`, e.g. a missing or unreachable
webhook). -/
def NotifierEnv : Type :=
  List WatchResult → Bool

/-- Modelled from the spec: the facade runs the watch loop, invokes the
notifier once with the full result sequence, swallows the notifier's
outcome, and returns the results.  The second component records the
notifier invocations (each entry one call's argument) so theorems can
speak about how often and with what the notifier was called. -/
def WatchAndNotify (env : WatchEnv) (notifier : NotifierEnv)
    (repositoryIds : List String) (once : Bool)
    (timeoutMinutes pollSeconds : Nat) :
    List WatchResult × List (List WatchResult) :=
  let results := watch env repositoryIds once timeoutMinutes pollSeconds
  let _notifyOutcome := notifier results
  (results, [results])

/-! ## Orchestrator facade, approve-and-merge path (spec section 4.5) -/

/-- Modelled from the spec: section 3's invariant that an empty explicit
PR-id list means "all eligible", never "none", applied to the optional
allow-list before filtering. -/
def effectiveAllowList : Option (List Int) → Option (List Int)
  | none => none
  | some [] => none
  | some (x :: xs) => some (x :: xs)

/-- Modelled from the spec: `ApproveAndMergeEligible` lists the PRs of
each repository in the given order, filters them through the eligibility
filter, runs the coordinator on the eligible ones, and concatenates the
outcome sequences.  `listPRs` models the Remote Repository Client's
listing capability. -/
def ApproveAndMergeEligible (reviewerId promotionBranch : String)
    (approveOk mergeOk : Int → Bool) (listPRs : String → List PullRequest)
    (repoIds : List String) (prIds : Option (List Int)) :
    List ApprovalOutcome :=
  (repoIds.map fun repo =>
    (approveAndMerge reviewerId approveOk mergeOk
      (selectEligible reviewerId (listPRs repo) promotionBranch
        (effectiveAllowList prIds))).1).flatten

/-! ## Backstage proxy router (router.ts)

The handlers of `createRouter` are embedded as total functions of a
`FetchOutcome`, which models everything the downstream call inside a
handler's try block can do: throw (network failure), or return a response
with a status code, a body text, and a JSON parse that either succeeds or
throws. -/

/-- The behaviour of the downstream `fetch` call and of reading its body,
as observed by one handler invocation. -/
inductive FetchOutcome where
  | fetchThrow (msg : String)
  | response (status : Nat) (bodyText : String) (json : Except String String)
  deriving Repr

/-- The `ok` flag of a fetch response: status in the 2xx range. -/
def respOk (status : Nat) : Bool :=
  decide (200 ≤ status) && decide (status < 300)

/-- The JSON bodies the router responds with. -/
inductive RespBody where
  | proxied (data : String)
  | healthOk (pythonApi : String)
  | healthError (message error : String)
  | errorObj (error message : String)
  deriving DecidableEq, Repr

/-- An HTTP response sent by a handler. -/
structure HttpResponse where
  status : Nat
  body : RespBody
  deriving DecidableEq, Repr

/-- Embeds the GET /health handler (router.ts lines 41-57): it does not
check `response.ok`; any error thrown in the try block (network failure or
JSON parse failure) is caught and answered with status 503 and a body
carrying the fixed message and the error's message. -/
def healthHandler (f : FetchOutcome) : HttpResponse :=
  match f with
  | .fetchThrow msg => ⟨503, .healthError "Python API is not available" msg⟩
  | .response _ _ json =>
    match json with
    | .ok data => ⟨200, .healthOk data⟩
    | .error msg => ⟨503, .healthError "Python API is not available" msg⟩

/-- Embeds the GET /prs/active handler (router.ts lines 63-95): a non-OK
response is converted to a thrown error whose message embeds the status
and body text; every throw is caught and answered with status 500. -/
def activePrsHandler (f : FetchOutcome) : HttpResponse :=
  match f with
  | .fetchThrow msg => ⟨500, .errorObj "Failed to fetch active PRs" msg⟩
  | .response status body json =>
    if respOk status then
      match json with
      | .ok data => ⟨200, .proxied data⟩
      | .error msg => ⟨500, .errorObj "Failed to fetch active PRs" msg⟩
    else
      ⟨500, .errorObj "Failed to fetch active PRs"
        ("API returned " ++ toString status ++ ": " ++ body)⟩

/-- Embeds the POST /prs/approve-merge handler (router.ts lines
102-138). -/
def approveMergeHandler (f : FetchOutcome) : HttpResponse :=
  match f with
  | .fetchThrow msg => ⟨500, .errorObj "Failed to approve/merge PRs" msg⟩
  | .response status body json =>
    if respOk status then
      match json with
      | .ok data => ⟨200, .proxied data⟩
      | .error msg => ⟨500, .errorObj "Failed to approve/merge PRs" msg⟩
    else
      ⟨500, .errorObj "Failed to approve/merge PRs"
        ("API returned " ++ toString status ++ ": " ++ body)⟩

/-- Embeds the GET /pipelines/status handler (router.ts lines 144-178). -/
def pipelineStatusHandler (f : FetchOutcome) : HttpResponse :=
  match f with
  | .fetchThrow msg => ⟨500, .errorObj "Failed to fetch pipeline status" msg⟩
  | .response status body json =>
    if respOk status then
      match json with
      | .ok data => ⟨200, .proxied data⟩
      | .error msg => ⟨500, .errorObj "Failed to fetch pipeline status" msg⟩
    else
      ⟨500, .errorObj "Failed to fetch pipeline status"
        ("API returned " ++ toString status ++ ": " ++ body)⟩

/-- Embeds the POST /pipelines/watch handler's response path (router.ts
lines 185-222). -/
def pipelineWatchHandler (f : FetchOutcome) : HttpResponse :=
  match f with
  | .fetchThrow msg => ⟨500, .errorObj "Failed to start pipeline watch" msg⟩
  | .response status body json =>
    if respOk status then
      match json with
      | .ok data => ⟨200, .proxied data⟩
      | .error msg => ⟨500, .errorObj "Failed to start pipeline watch" msg⟩
    else
      ⟨500, .errorObj "Failed to start pipeline watch"
        ("API returned " ++ toString status ++ ": " ++ body)⟩

/-- Whether the try block of a handler throws under outcome `f`.
`checkOk` is true for the four proxied routes, which convert a non-OK
status to a thrown error before reading JSON, and false for /health,
which never inspects `response.ok`. -/
def fetchThrows (checkOk : Bool) (f : FetchOutcome) : Bool :=
  match f with
  | .fetchThrow _ => true
  | .response status _ json =>
    if checkOk && !respOk status then true
    else
      match json with
      | .error _ => true
      | .ok _ => false

/-! ## Watch handler request-body forwarding (router.ts lines 185-204)

The POST /pipelines/watch handler reads `repo_ids`, `once`, `timeout_min`
and `poll_sec` from the request body and builds the downstream body with
JavaScript `||` defaulting: `once: once || false`, `timeout_min:
timeout_min || 60`, `poll_sec: poll_sec || 20`. -/

/-- A JSON-ish value of a request-body field as the handler sees it;
`absent` is JavaScript `undefined` (field missing). -/
inductive JsVal where
  | absent
  | null
  | num (n : Int)
  | bool (b : Bool)
  | str (s : String)
  deriving DecidableEq, Repr

/-- JavaScript truthiness of a `JsVal`: `undefined`, `null`, `0`, `false`
and the empty string are falsy. -/
def JsVal.truthy : JsVal → Bool
  | .absent => false
  | .null => false
  | .num n => !(n == 0)
  | .bool b => b
  | .str s => !(s == "")

/-- JavaScript `v || d`: `v` when truthy, otherwise `d`. -/
def jsOr (v d : JsVal) : JsVal :=
  if v.truthy then v else d

/-- The watch-relevant fields of the body the handler forwards to the
downstream watch endpoint. -/
structure WatchRequestForward where
  once : JsVal
  timeout_min : JsVal
  poll_sec : JsVal
  deriving DecidableEq, Repr

/-- Embeds the body construction of the POST /pipelines/watch handler
(router.ts lines 198-203). -/
def watchForwardBody (timeout_min poll_sec onceVal : JsVal) :
    WatchRequestForward :=
  { once := jsOr onceVal (.bool false)
    timeout_min := jsOr timeout_min (.num 60)
    poll_sec := jsOr poll_sec (.num 20) }

/-! ## Theorems -/

theorem mem_selectEligible_iff (reviewerId : String) (prs : List PullRequest)
    (pb : String) (allow : Option (List Int)) (pr : PullRequest) :
    pr ∈ selectEligible reviewerId prs pb allow ↔
      pr ∈ prs ∧
        pr.targetBranch.data.map Char.toLower = pb.data.map Char.toLower ∧
        (∀ ids, allow = some ids → pr.id ∈ ids) ∧
        voteOf pr reviewerId ≠ "approved" := by
  unfold selectEligible
  rw [List.mem_filter]
  constructor
  · rintro ⟨hmem, hp⟩
    simp only [Bool.and_eq_true, Bool.not_eq_true'] at hp
    obtain ⟨⟨hb, hal⟩, hv⟩ := hp
    refine ⟨hmem, ?_, ?_, ?_⟩
    · exact beq_iff_eq.mp hb
    · intro ids hids
      subst hids
      simpa using hal
    · intro hc
      rw [hc] at hv
      simp at hv
  · rintro ⟨hmem, hb, hal, hv⟩
    refine ⟨hmem, ?_⟩
    simp only [Bool.and_eq_true, Bool.not_eq_true']
    refine ⟨⟨?_, ?_⟩, ?_⟩
    · exact beq_iff_eq.mpr hb
    · cases allow with
      | none => rfl
      | some ids => simpa using hal ids rfl
    · exact beq_eq_false_iff_ne.mpr hv

/-- C1: `selectEligible` returns a subsequence of its input (order
preserved, no new elements) containing exactly the PRs whose target branch
case-insensitively equals the promotion branch, whose id is in the
allow-list when one is provided, and whose configured-reviewer vote is not
already "approved"; as a Lean function it is pure, so it has no side
effects. -/
theorem selectEligible_correct (reviewerId : String) (prs : List PullRequest)
    (pb : String) (allow : Option (List Int)) :
    (selectEligible reviewerId prs pb allow).Sublist prs ∧
      ∀ pr, pr ∈ selectEligible reviewerId prs pb allow ↔
        pr ∈ prs ∧
          pr.targetBranch.data.map Char.toLower = pb.data.map Char.toLower ∧
          (∀ ids, allow = some ids → pr.id ∈ ids) ∧
          voteOf pr reviewerId ≠ "approved" := by
  constructor
  · exact List.filter_sublist prs
  · intro pr
    exact mem_selectEligible_iff reviewerId prs pb allow pr

/-- Witness for C1 at a concrete input: with promotion branch "qas", PR
101 (targeting "QAS", not yet approved) is selected from a two-PR listing,
and the selection is a subsequence of the listing. -/
theorem selectEligible_correct_witness :
    (selectEligible "rev" [samplePR1, samplePR2] "qas" none).Sublist
        [samplePR1, samplePR2] ∧
      samplePR1 ∈ selectEligible "rev" [samplePR1, samplePR2] "qas" none := by
  obtain ⟨h1, h2⟩ :=
    selectEligible_correct "rev" [samplePR1, samplePR2] "qas" none
  refine ⟨h1, (h2 samplePR1).mpr ⟨?_, ?_, ?_, ?_⟩⟩
  · decide
  · decide
  · intro ids hids
    cases hids
  · decide

theorem mergeCall_mem_approveMergeOne (reviewerId : String)
    (approveOk mergeOk : Int → Bool) (pr : PullRequest) (r : String) (p : Int)
    (h : RemoteCall.mergeCall r p ∈ (approveMergeOne reviewerId approveOk mergeOk pr).2) :
    approveOk p = true ∧ p = pr.id := by
  unfold approveMergeOne at h
  by_cases ha : approveOk pr.id
  · simp only [ha, if_true] at h
    by_cases hm : mergeOk pr.id
    · simp only [hm, if_true] at h
      rcases List.mem_pair.mp h with hc | hc <;> cases hc
      exact ⟨ha, rfl⟩
    · simp only [hm, if_false] at h
      rcases List.mem_pair.mp h with hc | hc <;> cases hc
      exact ⟨ha, rfl⟩
  · rw [if_neg ha] at h
    simp at h

/-- C6: the coordinator returns exactly one outcome per eligible PR in
input order regardless of individual failures; on approval failure the
outcome records `approved = false` with `ApprovalFailed`; on merge failure
after successful approval it records `approved = true, merged = false`
with `MergeFailed`; on success it records `approved = true, merged = true`;
and a merge call is only ever made for a PR whose approval succeeded, so a
PR whose approval failed gets no merge call.  Because each outcome is
computed from its own PR alone, one PR's failure never aborts the
others. -/
theorem approveAndMerge_correct (reviewerId : String)
    (approveOk mergeOk : Int → Bool) (eligible : List PullRequest) :
    (approveAndMerge reviewerId approveOk mergeOk eligible).1.length =
        eligible.length ∧
      (∀ (i : Nat) (pr : PullRequest), eligible[i]? = some pr →
        ∃ o : ApprovalOutcome,
          (approveAndMerge reviewerId approveOk mergeOk eligible).1[i]? = some o ∧
          o.pullRequestId = pr.id ∧ o.repositoryId = pr.repositoryId ∧
          (approveOk pr.id = false →
            o.approved = false ∧ o.merged = false ∧
              o.errorKind = some .ApprovalFailed) ∧
          (approveOk pr.id = true → mergeOk pr.id = false →
            o.approved = true ∧ o.merged = false ∧
              o.errorKind = some .MergeFailed) ∧
          (approveOk pr.id = true → mergeOk pr.id = true →
            o.approved = true ∧ o.merged = true ∧ o.errorKind = none)) ∧
      (∀ r p, RemoteCall.mergeCall r p ∈
          (approveAndMerge reviewerId approveOk mergeOk eligible).2 →
        approveOk p = true) := by
  refine ⟨by simp [approveAndMerge], ?_, ?_⟩
  · intro i pr hpr
    refine ⟨(approveMergeOne reviewerId approveOk mergeOk pr).1, ?_, ?_⟩
    · simp [approveAndMerge, List.getElem?_map, hpr]
    · unfold approveMergeOne
      by_cases ha : approveOk pr.id <;> by_cases hm : mergeOk pr.id <;>
        simp [ha, hm]
  · intro r p hmem
    simp only [approveAndMerge, List.mem_flatten, List.mem_map] at hmem
    obtain ⟨l, ⟨pr, _, hl⟩, hin⟩ := hmem
    subst hl
    exact (mergeCall_mem_approveMergeOne reviewerId approveOk mergeOk pr r p hin).1

/-- Witness for C6 at a concrete input: approval of PR 101 fails under the
oracle that rejects everything, and its outcome records `ApprovalFailed`. -/
theorem approveAndMerge_correct_witness :
    ∃ o : ApprovalOutcome,
      (approveAndMerge "rev" (fun _ => false) (fun _ => true)
        [samplePR1]).1[0]? = some o ∧
      o.pullRequestId = samplePR1.id ∧ o.repositoryId = samplePR1.repositoryId ∧
      (o.approved = false ∧ o.merged = false ∧
        o.errorKind = some .ApprovalFailed) := by
  obtain ⟨o, ho, h1, h2, h3, -, -⟩ :=
    (approveAndMerge_correct "rev" (fun _ => false) (fun _ => true)
      [samplePR1]).2.1 0 samplePR1 (by decide)
  exact ⟨o, ho, h1, h2, h3 rfl⟩

theorem approveMergeOne_fst_key (reviewerId : String)
    (approveOk mergeOk : Int → Bool) (pr : PullRequest) :
    ((approveMergeOne reviewerId approveOk mergeOk pr).1.repositoryId,
      (approveMergeOne reviewerId approveOk mergeOk pr).1.pullRequestId) =
      prKey pr := by
  unfold approveMergeOne prKey
  by_cases ha : approveOk pr.id <;> by_cases hm : mergeOk pr.id <;> simp [ha, hm]

theorem approveMergeOne_calls_key (reviewerId : String)
    (approveOk mergeOk : Int → Bool) (pr : PullRequest) (c : RemoteCall)
    (h : c ∈ (approveMergeOne reviewerId approveOk mergeOk pr).2) :
    callKey c = prKey pr := by
  by_cases ha : approveOk pr.id <;> by_cases hm : mergeOk pr.id <;>
    simp [approveMergeOne, ha, hm] at h
  all_goals
    first
      | (rcases h with h | h <;> subst h <;> rfl)
      | (subst h; rfl)

/-- C7: a PR already approved by the configured reviewer is not selected as
eligible, so an invocation of the approve-and-merge flow on a fresh listing
containing it (the second run) produces no outcome for that PR at all — it
is reported as not re-processed, in particular never as `ApprovalFailed` —
and issues no approval call for it, so it is not re-approved.  PR keys in
the listing are assumed distinct, as a repository lists each PR once. -/
theorem approveMerge_idempotent (reviewerId pb : String)
    (aOk mOk : Int → Bool) (allow : Option (List Int))
    (prs : List PullRequest) (pr : PullRequest)
    (hnodup : (prs.map prKey).Nodup) (hmem : pr ∈ prs)
    (happ : voteOf pr reviewerId = "approved") :
    pr ∉ selectEligible reviewerId prs pb allow ∧
      (∀ o ∈ (approveAndMerge reviewerId aOk mOk
          (selectEligible reviewerId prs pb allow)).1,
        ¬(o.repositoryId = pr.repositoryId ∧ o.pullRequestId = pr.id)) ∧
      (∀ rid2 : String, RemoteCall.approveCall pr.repositoryId pr.id rid2 ∉
        (approveAndMerge reviewerId aOk mOk
          (selectEligible reviewerId prs pb allow)).2) := by
  have hkeyeq : ∀ q ∈ selectEligible reviewerId prs pb allow,
      prKey q = prKey pr → False := by
    intro q hq hkey
    have hq' : q ∈ prs :=
      ((mem_selectEligible_iff reviewerId prs pb allow q).mp hq).1
    have : q = pr := List.inj_on_of_nodup_map hnodup hq' hmem hkey
    subst this
    have hv := ((mem_selectEligible_iff reviewerId prs pb allow q).mp hq).2.2.2
    exact hv happ
  refine ⟨?_, ?_, ?_⟩
  · intro hsel
    have hv := ((mem_selectEligible_iff reviewerId prs pb allow pr).mp hsel).2.2.2
    exact hv happ
  · intro o ho hoid
    simp only [approveAndMerge, List.mem_map] at ho
    obtain ⟨q, hq, hoq⟩ := ho
    have hk := approveMergeOne_fst_key reviewerId aOk mOk q
    rw [hoq] at hk
    rw [hoid.1, hoid.2] at hk
    exact hkeyeq q hq hk.symm
  · intro rid2 hc
    simp only [approveAndMerge, List.mem_flatten, List.mem_map] at hc
    obtain ⟨l, ⟨q, hq, hl⟩, hin⟩ := hc
    subst hl
    have hk := approveMergeOne_calls_key reviewerId aOk mOk q _ hin
    exact hkeyeq q hq hk.symm

/-- Witness for C7 at a concrete input: PR 102 has the configured
reviewer's vote already "approved", so a run selects nothing for it, emits
no outcome for it, and makes no approval call for it. -/
theorem approveMerge_idempotent_witness :
    samplePR2 ∉ selectEligible "rev" [samplePR2] "QAS" none ∧
      (∀ o ∈ (approveAndMerge "rev" (fun _ => true) (fun _ => true)
          (selectEligible "rev" [samplePR2] "QAS" none)).1,
        ¬(o.repositoryId = samplePR2.repositoryId ∧
          o.pullRequestId = samplePR2.id)) ∧
      (∀ rid2 : String,
        RemoteCall.approveCall samplePR2.repositoryId samplePR2.id rid2 ∉
          (approveAndMerge "rev" (fun _ => true) (fun _ => true)
            (selectEligible "rev" [samplePR2] "QAS" none)).2) := by
  refine approveMerge_idempotent "rev" "QAS" (fun _ => true) (fun _ => true)
    none [samplePR2] samplePR2 ?_ ?_ ?_
  · simp
  · simp
  · decide

theorem watchRepoGo_repositoryId (env : WatchEnv) (repoId : String) :
    ∀ (fuel tick : Nat) (last : Option PipeState),
      (watchRepoGo env repoId tick fuel last).repositoryId = repoId := by
  intro fuel
  induction fuel with
  | zero => intro tick last; rfl
  | succ n ih =>
    intro tick last
    unfold watchRepoGo
    cases env tick repoId with
    | none => exact ih (tick + 1) last
    | some s =>
      by_cases hs : s.isTerminal
      · simp [hs]
      · simp [hs]; exact ih (tick + 1) (some s)

/-- C2: `WatchAndNotify` returns exactly one result per requested
repository: the result sequence has the same length as the request, its
repository ids are the requested ids in order, and when the requested ids
are distinct each id occurs exactly once — even though some per-repository
fetches may fail (the environment is arbitrary, including always-failing
fetches). -/
theorem watchAndNotify_complete (env : WatchEnv) (notifier : NotifierEnv)
    (repos : List String) (once : Bool) (t p : Nat) :
    (WatchAndNotify env notifier repos once t p).1.length = repos.length ∧
      (WatchAndNotify env notifier repos once t p).1.map
          (fun w => w.repositoryId) = repos ∧
      (repos.Nodup → ∀ r ∈ repos,
        ((WatchAndNotify env notifier repos once t p).1.map
          (fun w => w.repositoryId)).count r = 1) := by
  have hmap : (WatchAndNotify env notifier repos once t p).1.map
      (fun w => w.repositoryId) = repos := by
    simp only [WatchAndNotify, watch, List.map_map]
    have : ((fun w : WatchResult => w.repositoryId) ∘
        fun r => watchRepo env r (maxTicksFor once t p)) = id := by
      funext r
      exact watchRepoGo_repositoryId env r (maxTicksFor once t p) 0 none
    rw [this, List.map_id]
  refine ⟨by simp [WatchAndNotify, watch], hmap, ?_⟩
  intro hnd r hr
  rw [hmap]
  exact List.count_eq_one_of_mem hnd hr

/-- Witness for C2 at a concrete input: two repositories, an environment
whose fetches always fail, and a failing notifier still yield one result
per repository with id "R2" occurring exactly once. -/
theorem watchAndNotify_complete_witness :
    (WatchAndNotify (fun _ _ => none) (fun _ => false)
        ["R1", "R2"] false 1 20).1.length = 2 ∧
      ((WatchAndNotify (fun _ _ => none) (fun _ => false)
        ["R1", "R2"] false 1 20).1.map
          (fun w => w.repositoryId)).count "R2" = 1 := by
  obtain ⟨h1, _, h3⟩ := watchAndNotify_complete (fun _ _ => none)
    (fun _ => false) ["R1", "R2"] false 1 20
  exact ⟨h1, h3 (by decide) "R2" (by decide)⟩

/-- C3: with `timeoutMinutes = 0` and `once = false` the session still
performs exactly one poll tick, so every repository resolves within the
deadline precisely when its latest pipeline run is already in a terminal
state on that first tick; otherwise it is emitted as TimedOut with
`resolvedWithinDeadline = false`. -/
theorem watch_timeout_zero (env : WatchEnv) (repos : List String) (p : Nat)
    (hp : 0 < p) :
    ∀ (i : Nat) (r : String), repos[i]? = some r →
      ∃ w : WatchResult, (watch env repos false 0 p)[i]? = some w ∧
        w.repositoryId = r ∧
        (w.resolvedWithinDeadline = true ↔
          ∃ s : PipeState, env 0 r = some s ∧ s.isTerminal = true) := by
  have hdiv : (0 * 60 + p - 1) / p = 0 := Nat.div_eq_of_lt (by omega)
  have hticks : maxTicksFor false 0 p = 1 := by
    unfold maxTicksFor
    rw [if_neg (by simp), hdiv]
    omega
  intro i r hir
  refine ⟨watchRepo env r (maxTicksFor false 0 p), ?_, ?_, ?_⟩
  · simp [watch, List.getElem?_map, hir]
  · exact watchRepoGo_repositoryId env r (maxTicksFor false 0 p) 0 none
  · rw [hticks]
    unfold watchRepo
    cases henv : env 0 r with
    | none => simp [watchRepoGo, henv]
    | some s =>
      by_cases hs : s.isTerminal
      · simp [watchRepoGo, henv, hs]
      · simp [watchRepoGo, henv, hs]

/-- Witness for C3 at a concrete input: a run still `running` on the first
tick of a zero-timeout continuous watch is emitted unresolved. -/
theorem watch_timeout_zero_witness :
    ∃ w : WatchResult,
      (watch (fun _ _ => some .running) ["R1"] false 0 20)[0]? = some w ∧
        w.repositoryId = "R1" ∧ w.resolvedWithinDeadline = false := by
  obtain ⟨w, hw, hid, hiff⟩ := watch_timeout_zero (fun _ _ => some .running)
    ["R1"] 20 (by decide) 0 "R1" (by decide)
  refine ⟨w, hw, hid, ?_⟩
  by_cases hres : w.resolvedWithinDeadline = true
  · obtain ⟨s, hs, ht⟩ := hiff.mp hres
    obtain rfl : PipeState.running = s := Option.some.inj hs
    exact absurd ht (by decide)
  · simpa using hres

/-- C8: notifier failure is invisible to the caller.  The facade's result
is the watch loop's full result sequence whatever the notifier environment
does (so a missing or unreachable webhook cannot change the outcome), the
facade is a total function (no exception path exists for it to raise
through), and the notifier is invoked exactly once, with the full result
sequence as its argument. -/
theorem watchAndNotify_notifier_isolated (env : WatchEnv)
    (repos : List String) (once : Bool) (t p : Nat) :
    (∀ n1 n2 : NotifierEnv,
      WatchAndNotify env n1 repos once t p =
        WatchAndNotify env n2 repos once t p) ∧
      (∀ n : NotifierEnv,
        (WatchAndNotify env n repos once t p).2 =
            [(WatchAndNotify env n repos once t p).1] ∧
          (WatchAndNotify env n repos once t p).1 =
            watch env repos once t p) := by
  exact ⟨fun n1 n2 => rfl, fun n => ⟨rfl, rfl⟩⟩

/-- C5: invoking `ApproveAndMergeEligible` with an explicitly empty PR-id
list produces the same outcomes as invoking it with the PR-id list absent;
in particular the empty list imposes no narrowing at all on the
per-repository eligibility selection, so it selects all eligible PRs and
never none. -/
theorem approveAndMergeEligible_empty_prIds (reviewerId pb : String)
    (aOk mOk : Int → Bool) (listPRs : String → List PullRequest)
    (repoIds : List String) :
    ApproveAndMergeEligible reviewerId pb aOk mOk listPRs repoIds
        (some []) =
      ApproveAndMergeEligible reviewerId pb aOk mOk listPRs repoIds none ∧
      ∀ repo : String,
        selectEligible reviewerId (listPRs repo) pb
            (effectiveAllowList (some [])) =
          selectEligible reviewerId (listPRs repo) pb none := by
  exact ⟨rfl, fun repo => rfl⟩

/-- C9: every route handler is total with respect to errors.  Each handler
is a total function, so no exception propagates out of it; and whenever
the try block throws — network failure, JSON parse failure, or (for the
proxied routes) a non-OK status converted to a thrown error — the handler
responds with a JSON error body carrying a fixed error description and the
thrown message: HTTP 503 for /health and HTTP 500 for the four proxied
routes. -/
theorem routerHandlers_total_on_error (f : FetchOutcome) :
    (fetchThrows false f = true →
      (healthHandler f).status = 503 ∧
        ∃ m : String,
          (healthHandler f).body =
            .healthError "Python API is not available" m) ∧
      (fetchThrows true f = true →
        ((activePrsHandler f).status = 500 ∧
          ∃ m : String,
            (activePrsHandler f).body =
              .errorObj "Failed to fetch active PRs" m) ∧
        ((approveMergeHandler f).status = 500 ∧
          ∃ m : String,
            (approveMergeHandler f).body =
              .errorObj "Failed to approve/merge PRs" m) ∧
        ((pipelineStatusHandler f).status = 500 ∧
          ∃ m : String,
            (pipelineStatusHandler f).body =
              .errorObj "Failed to fetch pipeline status" m) ∧
        ((pipelineWatchHandler f).status = 500 ∧
          ∃ m : String,
            (pipelineWatchHandler f).body =
              .errorObj "Failed to start pipeline watch" m)) := by
  cases f with
  | fetchThrow msg =>
    refine ⟨fun _ => ⟨rfl, msg, rfl⟩, fun _ => ?_⟩
    exact ⟨⟨rfl, msg, rfl⟩, ⟨rfl, msg, rfl⟩, ⟨rfl, msg, rfl⟩, ⟨rfl, msg, rfl⟩⟩
  | response status body json =>
    constructor
    · intro hthrow
      cases json with
      | ok data =>
        simp [fetchThrows] at hthrow
      | error msg =>
        exact ⟨rfl, msg, rfl⟩
    · intro hthrow
      by_cases hok : respOk status
      · cases json with
        | ok data =>
          simp [fetchThrows, hok] at hthrow
        | error msg =>
          refine ⟨⟨?_, msg, ?_⟩, ⟨?_, msg, ?_⟩, ⟨?_, msg, ?_⟩, ⟨?_, msg, ?_⟩⟩ <;>
            simp [activePrsHandler, approveMergeHandler,
              pipelineStatusHandler, pipelineWatchHandler, hok]
      · have hok' : respOk status = false := by
          exact Bool.not_eq_true _ ▸ Bool.eq_false_iff.mpr hok
        refine
          ⟨⟨?_, "API returned " ++ toString status ++ ": " ++ body, ?_⟩,
            ⟨?_, "API returned " ++ toString status ++ ": " ++ body, ?_⟩,
            ⟨?_, "API returned " ++ toString status ++ ": " ++ body, ?_⟩,
            ⟨?_, "API returned " ++ toString status ++ ": " ++ body, ?_⟩⟩ <;>
          simp [activePrsHandler, approveMergeHandler,
            pipelineStatusHandler, pipelineWatchHandler, hok']

/-- Witness for C9 at a concrete input: a network failure is answered with
503 by /health and 500 by the approve-merge proxy route. -/
theorem routerHandlers_total_on_error_witness :
    (healthHandler (.fetchThrow "ECONNREFUSED")).status = 503 ∧
      (approveMergeHandler (.fetchThrow "ECONNREFUSED")).status = 500 := by
  obtain ⟨h1, h2⟩ := routerHandlers_total_on_error (.fetchThrow "ECONNREFUSED")
  exact ⟨(h1 rfl).1, (h2 rfl).2.1.1⟩

/-- C10: when the downstream API responds with a non-OK status, the four
proxied routes do not forward that status: each responds with status 500
and a JSON error object whose message embeds the downstream status code
and the downstream response body text. -/
theorem routerHandlers_nonOk_to_500 (status : Nat) (body : String)
    (json : Except String String) (hnot : respOk status = false) :
    activePrsHandler (.response status body json) =
        ⟨500, .errorObj "Failed to fetch active PRs"
          ("API returned " ++ toString status ++ ": " ++ body)⟩ ∧
      approveMergeHandler (.response status body json) =
        ⟨500, .errorObj "Failed to approve/merge PRs"
          ("API returned " ++ toString status ++ ": " ++ body)⟩ ∧
      pipelineStatusHandler (.response status body json) =
        ⟨500, .errorObj "Failed to fetch pipeline status"
          ("API returned " ++ toString status ++ ": " ++ body)⟩ ∧
      pipelineWatchHandler (.response status body json) =
        ⟨500, .errorObj "Failed to start pipeline watch"
          ("API returned " ++ toString status ++ ": " ++ body)⟩ := by
  refine ⟨?_, ?_, ?_, ?_⟩ <;>
    simp [activePrsHandler, approveMergeHandler, pipelineStatusHandler,
      pipelineWatchHandler, hnot]

/-- Witness for C10 at a concrete input: a downstream 404 with body
"not found" is answered by the approve-merge proxy with 500 and the
embedded downstream status and body. -/
theorem routerHandlers_nonOk_to_500_witness :
    approveMergeHandler (.response 404 "not found" (.ok "ignored")) =
      ⟨500, .errorObj "Failed to approve/merge PRs"
        ("API returned " ++ toString (404 : Nat) ++ ": " ++ "not found")⟩ :=
  (routerHandlers_nonOk_to_500 404 "not found" (.ok "ignored")
    (by decide)).2.1

/-- Counterexample to C4: a caller explicitly supplying
`timeout_min = 0` does not get that value forwarded — the handler's `||`
defaulting replaces it with 60, so explicitly supplied values are not
always used as given. -/
theorem watchForward_zero_replaced :
    (watchForwardBody (.num 0) .absent .absent).timeout_min = .num 60 ∧
      JsVal.num 60 ≠ JsVal.num 0 := by
  exact ⟨rfl, by decide⟩

/-- C4 (amended): when `timeout_min`, `poll_sec` or `once` is omitted the
handler forwards 60, 20 and false respectively; a supplied value is
forwarded as given when it is truthy, while a falsy supplied value (0,
null, false, empty string) is replaced by the same default — for `once`
the only falsy boolean is false, which coincides with the default, so the
replacement is observable only on the numeric fields. -/
theorem watchForward_defaults (t p o : JsVal) :
    watchForwardBody .absent .absent .absent =
        ⟨.bool false, .num 60, .num 20⟩ ∧
      (t.truthy = true → (watchForwardBody t p o).timeout_min = t) ∧
      (p.truthy = true → (watchForwardBody t p o).poll_sec = p) ∧
      (o.truthy = true → (watchForwardBody t p o).once = o) ∧
      (t.truthy = false →
        (watchForwardBody t p o).timeout_min = .num 60) ∧
      (p.truthy = false → (watchForwardBody t p o).poll_sec = .num 20) ∧
      (o.truthy = false → (watchForwardBody t p o).once = .bool false) := by
  refine ⟨rfl, ?_, ?_, ?_, ?_, ?_, ?_⟩ <;> intro h <;>
    simp [watchForwardBody, jsOr, h]

/-- Witness for C4 (amended) at concrete inputs: all fields omitted give
the defaults, and a supplied truthy `timeout_min = 5` is forwarded as
given. -/
theorem watchForward_defaults_witness :
    watchForwardBody .absent .absent .absent =
        ⟨.bool false, .num 60, .num 20⟩ ∧
      (watchForwardBody (.num 5) .absent .absent).timeout_min = .num 5 := by
  obtain ⟨h1, h2, -, -, -, -, -⟩ := watchForward_defaults (.num 5) .absent .absent
  exact ⟨h1, h2 (by decide)⟩

end Backstage
